import Mathlib

/-!
# Verification of `viz_tools.py` (shallow-water visualization utilities)

Shallow embedding of the visualization pipelines of `src/viz_tools.py`:

* the Frame-Render-Encode pipelines `eta_animation`, `velocity_animation`
  and `eta_animation3D`, modelled as functions that return the ordered
  trace of file-system / video-container events they perform, together
  with the Python error (if any) they raise;
* the Mesh-Extraction pipeline `eta_meshes` with its nested `get_mesh`
  worker and `sdf` scalar field.

Real numbers of the Python code are embedded as rationals `ℚ`; the
external renderer (matplotlib figure rasterization + PIL) is an abstract
parameter `rasterize` mapping the per-frame render state to an RGB pixel
raster; the external marching-cubes routine is an abstract parameter
`mc`.  Python `int()` (truncation toward zero) is `pyInt`, and numpy's
negative-index wrap-around is `pyIdx`.
-/

/-- A 2D numpy array of reals (one field snapshot), as rows of rationals. -/
abbrev Mat : Type := List (List ℚ)

/-- An RGB raster image: rows of `(r, g, b)` pixels. -/
abbrev Raster : Type := List (List (ℚ × ℚ × ℚ))

/-- Python exceptions that the embedded code can raise. -/
inductive PyErr : Type where
  | indexError : PyErr
  | nameError : PyErr
  | valueError : PyErr
deriving DecidableEq, Repr

/-- Python `int()` on a rational: truncation toward zero. -/
def pyInt (q : ℚ) : ℤ :=
  if 0 ≤ q then ⌊q⌋ else -⌊-q⌋

/-- numpy index semantics: a negative index wraps around by the axis length. -/
def pyIdx (n : ℕ) (i : ℤ) : ℕ :=
  (if i < 0 then i + n else i).toNat

/-- `m[i, j]` with numpy negative-index wrap-around (row `i`, column `j`). -/
def matGetI (m : Mat) (i j : ℤ) : ℚ :=
  let row := m.getD (pyIdx m.length i) []
  row.getD (pyIdx row.length j) 0

/-- `np.abs(m).max()`: the largest absolute value of the entries of `m`
(0 for an empty array, on which numpy would raise instead; the pipelines
only apply it to actual snapshots). -/
def matAbsMax (m : Mat) : ℚ :=
  (m.flatten.map (fun q => |q|)).foldr max 0

/-- `.min()` of a flat nonempty list (numpy raises on an empty one; we
return 0 there). -/
def listMinD : List ℚ → ℚ
  | [] => 0
  | a :: t => t.foldl min a

/-- `.max()` of a flat nonempty list (numpy raises on an empty one; we
return 0 there). -/
def listMaxD : List ℚ → ℚ
  | [] => 0
  | a :: t => t.foldl max a

/-- `eta[:-1, :-1]`: drop the last row and the last column. -/
def trimLast (m : Mat) : Mat :=
  m.dropLast.map List.dropLast

/-- `l[::q]` for a positive step `q`: keep the entries at indices `0, q, 2q, …`. -/
def everyNth (q : ℕ) (l : List α) : List α :=
  (l.enum.filter (fun p => p.1 % q = 0)).map Prod.snd

/-- `m[::q, ::q]`: subsample rows and columns with step `q`. -/
def subsample (q : ℕ) (m : Mat) : Mat :=
  (everyNth q m).map (everyNth q)

/-- Left-pad the decimal representation of `n` with zeros to width `w`
(Python `f-string` `{n:08d}` with `w = 8`). -/
def zeroPad (w n : ℕ) : String :=
  let s := toString n
  String.mk (List.replicate (w - s.length) '0') ++ s

/-- The frame file name `frame_{i:08d}.png`. -/
def frameName (i : ℕ) : String :=
  "frame_" ++ zeroPad 8 i ++ ".png"

/-- The mesh file name `mesh_{i:08d}.obj`. -/
def meshName (i : ℕ) : String :=
  "mesh_" ++ zeroPad 8 i ++ ".obj"

/-- `np.array(frame)[..., [2, 1, 0]]` on one pixel: reverse the three
color channels, RGB to BGR. -/
def bgrPixel (p : ℚ × ℚ × ℚ) : ℚ × ℚ × ℚ :=
  (p.2.2, p.2.1, p.1)

/-- Channel reversal of a whole raster (RGB to BGR). -/
def bgrRaster (r : Raster) : Raster :=
  r.map (fun row => row.map bgrPixel)

/-- PIL's `frame.size`: `(width, height)` of a raster. -/
def rasterSize (r : Raster) : ℕ × ℕ :=
  ((r.headD []).length, r.length)

/-- Render state of one 2D `pcolormesh` frame (also reused for the 3D
`plot_surface` frames, which carry the same data): the displayed array,
the title's elapsed-time label in minutes, and the fixed color bounds. -/
structure FrameState : Type where
  data : Mat
  titleMinutes : ℚ
  vmin : ℚ
  vmax : ℚ
deriving DecidableEq, Repr

instance : Inhabited FrameState := ⟨⟨[], 0, 0, 0⟩⟩

/-- Render state of one quiver frame: the subsampled velocity components
and the title's elapsed-time label in minutes. -/
structure QuivState : Type where
  u : Mat
  v : Mat
  titleMinutes : ℚ
deriving DecidableEq, Repr

instance : Inhabited QuivState := ⟨⟨[], [], 0⟩⟩

/-- One observable side effect of a Frame-Render-Encode pipeline, in
program order.  `savePng` records the written file's name, the render
state it depicts and the rasterized pixels; `videoOpen` records the
`cv2.VideoWriter` creation; `videoWrite` the pixel array appended to the
container. -/
inductive VizEvent (α : Type) : Type where
  | mkdir (path : String) : VizEvent α
  | savePng (idx : ℕ) (name : String) (st : α) (raster : Raster) : VizEvent α
  | videoOpen (name : String) (fps : ℕ) (size : ℕ × ℕ) : VizEvent α
  | videoWrite (raster : Raster) : VizEvent α
  | videoRelease : VizEvent α

/-- Result of running a pipeline: the events performed before returning
or raising, and the raised Python error (`none` on normal return). -/
structure RunResult (α : Type) : Type where
  events : List (VizEvent α)
  error : Option PyErr

/-- A `savePng` event's payload. -/
structure PngRec (α : Type) : Type where
  idx : ℕ
  name : String
  st : α
  raster : Raster

instance [Inhabited α] : Inhabited (PngRec α) := ⟨⟨0, "", default, []⟩⟩

/-- Select the `savePng` events of a trace. -/
def pngRecs (evs : List (VizEvent α)) : List (PngRec α) :=
  evs.filterMap (fun e =>
    match e with
    | .savePng i n st r => some ⟨i, n, st, r⟩
    | _ => none)

/-- Select the `videoOpen` events of a trace. -/
def openRecs (evs : List (VizEvent α)) : List (String × ℕ × (ℕ × ℕ)) :=
  evs.filterMap (fun e =>
    match e with
    | .videoOpen n fps sz => some (n, fps, sz)
    | _ => none)

/-- Select the rasters appended to the video container, in order. -/
def writeRecs (evs : List (VizEvent α)) : List Raster :=
  evs.filterMap (fun e =>
    match e with
    | .videoWrite r => some r
    | _ => none)

/-- The raster of the first saved frame of a trace. -/
def firstPngRaster [Inhabited α] (evs : List (VizEvent α)) : Raster :=
  ((pngRecs evs).map PngRec.raster).headD []

/-- One iteration of the `for i in range(len(...))` loop of the opencv
branch: update the plot to state `mkSt i`, save the figure to
`frame_{i:08d}.png`, on `i = 0` create the `cv2.VideoWriter` with the
first frame's size, then append the channel-reversed raster. -/
def frameStep (rasterize : α → Raster) (mkSt : ℕ → α) (FPS : ℕ) (i : ℕ) :
    List (VizEvent α) :=
  let st := mkSt i
  let r := rasterize st
  [VizEvent.savePng i (frameName i) st r]
    ++ (if i = 0 then [VizEvent.videoOpen "video.mp4" FPS (rasterSize r)] else [])
    ++ [VizEvent.videoWrite (bgrRaster r)]

/-- The whole frame loop for indices `0, …, n-1`, events in program order. -/
def renderLoop (rasterize : α → Raster) (mkSt : ℕ → α) (FPS : ℕ) : ℕ → List (VizEvent α)
  | 0 => []
  | n + 1 => renderLoop rasterize mkSt FPS n ++ frameStep rasterize mkSt FPS n

/-- Render state of frame `i` of `eta_animation`: `pmesh.set_array` shows
`eta_list[i][:-1, :-1]`, the title shows `i * frame_interval / 60`
minutes, and the color bounds are the fixed `vmin`/`vmax` of the
`pcolormesh` created before the loop. -/
def etaFrameState (eta_list : List Mat) (fi vmin vmax : ℚ) (i : ℕ) : FrameState :=
  ⟨trimLast (eta_list.getD i []), (i : ℚ) * fi / 60, vmin, vmax⟩

/-- `eta_animation(X, Y, eta_list, frame_interval, out_folder, writer, FPS)`.

The figure setup evaluates `eta_list[0]` and
`eta_list[int(len(eta_list)/2)]`, so an empty snapshot list raises
`IndexError` before any event.  With `writer='opencv'` the frames folder
is created, the loop renders and appends every frame, and the container
is released; any other writer reaches
`anim.save("{}.mp4".format(filename), ...)` where the name `filename`
is unbound, raising `NameError` with no file written. -/
def eta_animation (rasterize : FrameState → Raster) (eta_list : List Mat)
    (fi : ℚ) (writer : String) (FPS : ℕ) : RunResult FrameState :=
  if eta_list.length = 0 then ⟨[], some PyErr.indexError⟩
  else
    let M := matAbsMax (eta_list.getD (eta_list.length / 2) [])
    if writer = "opencv" then
      ⟨VizEvent.mkdir "frames"
          :: (renderLoop rasterize (etaFrameState eta_list fi (-(7/10) * M) M) FPS
                eta_list.length
              ++ [VizEvent.videoRelease]),
        none⟩
    else ⟨[], some PyErr.nameError⟩

/-- `int(0.02 * min(*X.shape))`: the quiver subsampling stride of
`velocity_animation`.  (For the natural-number shapes involved the
float product `0.02 * m` rounds to the same integer as the exact
rational `m / 50` for every `m`, which the rational embedding uses.) -/
def quiverStride (m : ℕ) : ℕ :=
  (pyInt ((2 / 100 : ℚ) * (m : ℚ))).toNat

/-- Render state of frame `i` of `velocity_animation`:
`Q.set_UVC(u[::q, ::q], v[::q, ::q])` and the minutes title. -/
def quivFrameState (q : ℕ) (u_list v_list : List Mat) (fi : ℚ) (i : ℕ) : QuivState :=
  ⟨subsample q (u_list.getD i []), subsample q (v_list.getD i []), (i : ℚ) * fi / 60⟩

/-- `velocity_animation(X, Y, u_list, v_list, frame_interval, out_folder, writer, FPS)`.

`q_int = int(0.02 * min(*X.shape))` is computed first; the quiver setup
then slices `X[::q_int, ::q_int]`, which raises `ValueError` (slice step
zero) when `q_int = 0`, and evaluates `u_list[0]`, which raises
`IndexError` on an empty list.  Otherwise the opencv branch renders and
appends every frame; any other writer hits the unbound name `filename`
and raises `NameError` with no file written. -/
def velocity_animation (rasterize : QuivState → Raster) (shape : ℕ × ℕ)
    (u_list v_list : List Mat) (fi : ℚ) (writer : String) (FPS : ℕ) :
    RunResult QuivState :=
  let q_int := quiverStride (min shape.1 shape.2)
  if q_int = 0 then ⟨[], some PyErr.valueError⟩
  else if u_list.length = 0 then ⟨[], some PyErr.indexError⟩
  else if writer = "opencv" then
    ⟨VizEvent.mkdir "frames"
        :: (renderLoop rasterize (quivFrameState q_int u_list v_list fi) FPS
              u_list.length
            ++ [VizEvent.videoRelease]),
      none⟩
  else ⟨[], some PyErr.nameError⟩

/-- Render state of frame `i` of `eta_animation3D`: `plot_surface` of the
full `eta_list[i]` with the global color bounds `vmin`/`vmax`, and the
minutes title. -/
def surfFrameState (eta_list : List Mat) (fi vmin vmax : ℚ) (i : ℕ) : FrameState :=
  ⟨eta_list.getD i [], (i : ℚ) * fi / 60, vmin, vmax⟩

/-- `eta_animation3D(X, Y, eta_list, frame_interval, out_folder, writer, FPS)`.

The figure setup evaluates `eta_list[0]` (IndexError on an empty list);
then `vmin, vmax = np.array(eta_list).min(), np.array(eta_list).max()`
are computed once over every entry of every snapshot and used by each
frame.  The opencv branch and the `NameError` of the non-opencv branch
are as in `eta_animation`. -/
def eta_animation3D (rasterize : FrameState → Raster) (eta_list : List Mat)
    (fi : ℚ) (writer : String) (FPS : ℕ) : RunResult FrameState :=
  if eta_list.length = 0 then ⟨[], some PyErr.indexError⟩
  else
    let vmin := listMinD eta_list.flatten.flatten
    let vmax := listMaxD eta_list.flatten.flatten
    if writer = "opencv" then
      ⟨VizEvent.mkdir "frames"
          :: (renderLoop rasterize (surfFrameState eta_list fi vmin vmax) FPS
                eta_list.length
              ++ [VizEvent.videoRelease]),
        none⟩
    else ⟨[], some PyErr.nameError⟩

/-- The 3D bounding box of `get_mesh`: `bounds[0] = (xmin, ymin, zmin)`
and `bounds[1] = (xmax, ymax, zmax)`. -/
structure Bounds : Type where
  xmin : ℚ
  ymin : ℚ
  zmin : ℚ
  xmax : ℚ
  ymax : ℚ
  zmax : ℚ
deriving DecidableEq, Repr

/-- `rg = max(x_max - x_min, max(y_max - y_min, z_max - z_min))`:
the largest axis extent of the box. -/
def rgOf (b : Bounds) : ℚ :=
  max (b.xmax - b.xmin) (max (b.ymax - b.ymin) (b.zmax - b.zmin))

/-- `(resx, resy, resz) = (int(res/rg*(x_max-x_min)), int(res/rg*(y_max-y_min)),
int(res/rg*(z_max-z_min)))`: the per-axis voxel resolutions of `get_mesh`. -/
def axisResolutions (b : Bounds) (res : ℕ) : ℤ × ℤ × ℤ :=
  (pyInt ((res : ℚ) / rgOf b * (b.xmax - b.xmin)),
    pyInt ((res : ℚ) / rgOf b * (b.ymax - b.ymin)),
    pyInt ((res : ℚ) / rgOf b * (b.zmax - b.zmin)))

/-- `eta.shape[1]`: the column count of the (rectangular) height field. -/
def etaCols (eta : Mat) : ℕ :=
  (eta.headD []).length

/-- The proportional index scaling of `sdf`:
`(n - 1) * (t - lo) / (hi - lo)` for an axis of `n` samples over `[lo, hi]`. -/
def scaledIdx (n : ℕ) (lo hi t : ℚ) : ℚ :=
  ((n - 1 : ℕ) : ℚ) * (t - lo) / (hi - lo)

/-- The nested scalar field of `get_mesh`:
`col = int((eta.shape[0]-1)*(x-x_min)/(x_max-x_min))`,
`row = int((eta.shape[1]-1)*(y-y_min)/(y_max-y_min))`,
returning `eta[col, row] - z`. -/
def sdf (eta : Mat) (b : Bounds) (x y z : ℚ) : ℚ :=
  matGetI eta (pyInt (scaledIdx eta.length b.xmin b.xmax x))
      (pyInt (scaledIdx (etaCols eta) b.ymin b.ymax y))
    - z

/-- The physical position of the axis sample of index `i` among `n`
samples spread over `[lo, hi]`: the unique point whose proportional
index scaling is exactly `i` (for `n = 1` the single sample sits at `lo`). -/
def samplePos (n : ℕ) (lo hi : ℚ) (i : ℕ) : ℚ :=
  lo + (i : ℚ) * (hi - lo) / ((n - 1 : ℕ) : ℚ)

/-- `get_mesh(i, eta, bounds, res, out_folder)`: run the external
marching-cubes routine `mc` on the box at the derived per-axis
resolutions over the scalar field `sdf` with isolevel `0`, and write the
result to `mesh_{i:08d}.obj`.  `mc` abstracts
`mcubes.marching_cubes_func` composed with `mcubes.export_obj`. -/
def get_mesh {Mesh : Type}
    (mc : Bounds → ℤ × ℤ × ℤ → (ℚ → ℚ → ℚ → ℚ) → ℚ → Mesh)
    (i : ℕ) (eta : Mat) (b : Bounds) (res : ℕ) : String × Mesh :=
  (meshName i, mc b (axisResolutions b res) (sdf eta b) 0)

/-- `eta_meshes(eta_list, bounds, res, meshes_folder)`: one `get_mesh`
task per snapshot index.  The joblib pool runs the tasks in parallel
with index-disjoint output files; the list below is the per-index
outcome (file name and mesh content) when no task fails. -/
def eta_meshes {Mesh : Type}
    (mc : Bounds → ℤ × ℤ × ℤ → (ℚ → ℚ → ℚ → ℚ) → ℚ → Mesh)
    (eta_list : List Mat) (b : Bounds) (res : ℕ) : List (String × Mesh) :=
  (List.range eta_list.length).map (fun i => get_mesh mc i (eta_list.getD i []) b res)

/-- The spec's reading of the scalar field, taken literally: map `(x, y)`
to the NEAREST height-field cell (round the proportional index scaling
to the nearest integer) and return `height(cell) - z`.  Stated only to
compare with `sdf`, which truncates the scaled index instead. -/
def nearestCellSdf (eta : Mat) (b : Bounds) (x y z : ℚ) : ℚ :=
  matGetI eta (round (scaledIdx eta.length b.xmin b.xmax x))
      (round (scaledIdx (etaCols eta) b.ymin b.ymax y))
    - z

theorem pngRecs_append (l₁ l₂ : List (VizEvent α)) :
    pngRecs (l₁ ++ l₂) = pngRecs l₁ ++ pngRecs l₂ :=
  List.filterMap_append l₁ l₂ _

theorem openRecs_append (l₁ l₂ : List (VizEvent α)) :
    openRecs (l₁ ++ l₂) = openRecs l₁ ++ openRecs l₂ :=
  List.filterMap_append l₁ l₂ _

theorem writeRecs_append (l₁ l₂ : List (VizEvent α)) :
    writeRecs (l₁ ++ l₂) = writeRecs l₁ ++ writeRecs l₂ :=
  List.filterMap_append l₁ l₂ _

theorem pngRecs_frameStep (rasterize : α → Raster) (mkSt : ℕ → α) (FPS i : ℕ) :
    pngRecs (frameStep rasterize mkSt FPS i) =
      [⟨i, frameName i, mkSt i, rasterize (mkSt i)⟩] := by
  by_cases h : i = 0 <;> simp [frameStep, pngRecs, h]

theorem writeRecs_frameStep (rasterize : α → Raster) (mkSt : ℕ → α) (FPS i : ℕ) :
    writeRecs (frameStep rasterize mkSt FPS i) = [bgrRaster (rasterize (mkSt i))] := by
  by_cases h : i = 0 <;> simp [frameStep, writeRecs, h]

theorem openRecs_frameStep (rasterize : α → Raster) (mkSt : ℕ → α) (FPS i : ℕ) :
    openRecs (frameStep rasterize mkSt FPS i) =
      if i = 0 then [("video.mp4", FPS, rasterSize (rasterize (mkSt 0)))] else [] := by
  by_cases h : i = 0 <;> simp [frameStep, openRecs, h]

theorem pngRecs_renderLoop (rasterize : α → Raster) (mkSt : ℕ → α) (FPS n : ℕ) :
    pngRecs (renderLoop rasterize mkSt FPS n) =
      (List.range n).map (fun i => ⟨i, frameName i, mkSt i, rasterize (mkSt i)⟩) := by
  induction n with
  | zero => rfl
  | succ n ih =>
      rw [renderLoop, pngRecs_append, ih, pngRecs_frameStep, List.range_succ,
        List.map_append, List.map_singleton]

theorem writeRecs_renderLoop (rasterize : α → Raster) (mkSt : ℕ → α) (FPS n : ℕ) :
    writeRecs (renderLoop rasterize mkSt FPS n) =
      (List.range n).map (fun i => bgrRaster (rasterize (mkSt i))) := by
  induction n with
  | zero => rfl
  | succ n ih =>
      rw [renderLoop, writeRecs_append, ih, writeRecs_frameStep, List.range_succ,
        List.map_append, List.map_singleton]

theorem openRecs_renderLoop (rasterize : α → Raster) (mkSt : ℕ → α) (FPS n : ℕ) :
    openRecs (renderLoop rasterize mkSt FPS n) =
      if n = 0 then [] else [("video.mp4", FPS, rasterSize (rasterize (mkSt 0)))] := by
  induction n with
  | zero => rfl
  | succ n ih =>
      rw [renderLoop, openRecs_append, ih, openRecs_frameStep]
      by_cases h : n = 0 <;> simp [h]

theorem renderLoop_front (rasterize : α → Raster) (mkSt : ℕ → α) (FPS : ℕ) :
    ∀ n : ℕ, 1 ≤ n →
      ∃ rest, renderLoop rasterize mkSt FPS n = frameStep rasterize mkSt FPS 0 ++ rest := by
  intro n hn
  induction n with
  | zero => omega
  | succ n ih =>
      rcases Nat.eq_zero_or_pos n with h0 | hpos
      · subst h0
        exact ⟨[], by simp [renderLoop]⟩
      · obtain ⟨r, hr⟩ := ih hpos
        exact ⟨r ++ frameStep rasterize mkSt FPS n, by rw [renderLoop, hr, List.append_assoc]⟩

theorem pngRecs_wrap (p : String) (L : List (VizEvent α)) :
    pngRecs (VizEvent.mkdir p :: (L ++ [VizEvent.videoRelease])) = pngRecs L := by
  simp [pngRecs]

theorem openRecs_wrap (p : String) (L : List (VizEvent α)) :
    openRecs (VizEvent.mkdir p :: (L ++ [VizEvent.videoRelease])) = openRecs L := by
  simp [openRecs]

theorem writeRecs_wrap (p : String) (L : List (VizEvent α)) :
    writeRecs (VizEvent.mkdir p :: (L ++ [VizEvent.videoRelease])) = writeRecs L := by
  simp [writeRecs]

theorem pyInt_of_nonneg {q : ℚ} (h : 0 ≤ q) : pyInt q = ⌊q⌋ :=
  if_pos h

theorem pyInt_natCast (i : ℕ) : pyInt ((i : ℕ) : ℚ) = (i : ℤ) := by
  rw [pyInt_of_nonneg (by positivity)]
  exact Int.floor_natCast i

theorem quiverStride_eq_zero_iff (m : ℕ) : quiverStride m = 0 ↔ m < 50 := by
  have hq : (2 / 100 : ℚ) * (m : ℚ) = (m : ℚ) / 50 := by ring
  have h0 : (0 : ℚ) ≤ (2 / 100 : ℚ) * (m : ℚ) := by positivity
  rw [quiverStride, pyInt_of_nonneg h0, hq, Int.toNat_eq_zero]
  constructor
  · intro h
    have h1 : ((m : ℚ) / 50) < ((1 : ℤ) : ℚ) := Int.floor_lt.mp (by omega)
    push_cast at h1
    rw [div_lt_one (by norm_num : (0:ℚ) < 50)] at h1
    exact_mod_cast h1
  · intro hm
    have h1 : (m : ℚ) / 50 < 1 := by
      rw [div_lt_one (by norm_num : (0:ℚ) < 50)]
      exact_mod_cast hm
    have h2 : ⌊(m : ℚ) / 50⌋ < (1 : ℤ) := Int.floor_lt.mpr (by push_cast; exact h1)
    omega

theorem scaledIdx_samplePos (n : ℕ) (lo hi : ℚ) (i : ℕ)
    (hlh : lo < hi) (hin : i < n) :
    scaledIdx n lo hi (samplePos n lo hi i) = (i : ℚ) := by
  rcases n with _ | m
  · omega
  · rw [scaledIdx, samplePos]
    rcases Nat.eq_zero_or_pos m with h0 | hm
    · subst h0
      have hi0 : i = 0 := by omega
      subst hi0
      simp
    · have hm' : ((m : ℕ) : ℚ) ≠ 0 := Nat.cast_ne_zero.mpr (Nat.pos_iff_ne_zero.mp hm)
      have hd : hi - lo ≠ 0 := sub_ne_zero.mpr (ne_of_gt hlh)
      simp only [Nat.succ_sub_one]
      field_simp
      ring

theorem eta_animation_opencv_run (rasterize : FrameState → Raster)
    (eta_list : List Mat) (fi : ℚ) (FPS : ℕ) (h : eta_list.length ≠ 0) :
    eta_animation rasterize eta_list fi "opencv" FPS =
      ⟨VizEvent.mkdir "frames"
          :: (renderLoop rasterize
                (etaFrameState eta_list fi
                  (-(7 / 10) * matAbsMax (eta_list.getD (eta_list.length / 2) []))
                  (matAbsMax (eta_list.getD (eta_list.length / 2) []))) FPS
                eta_list.length
              ++ [VizEvent.videoRelease]),
        none⟩ := by
  simp [eta_animation, h]

theorem eta_animation3D_opencv_run (rasterize : FrameState → Raster)
    (eta_list : List Mat) (fi : ℚ) (FPS : ℕ) (h : eta_list.length ≠ 0) :
    eta_animation3D rasterize eta_list fi "opencv" FPS =
      ⟨VizEvent.mkdir "frames"
          :: (renderLoop rasterize
                (surfFrameState eta_list fi (listMinD eta_list.flatten.flatten)
                  (listMaxD eta_list.flatten.flatten)) FPS eta_list.length
              ++ [VizEvent.videoRelease]),
        none⟩ := by
  simp [eta_animation3D, h]

/-- C2: the spec demands a guarded no-op for an empty snapshot sequence,
but the code has no guard: `plt.pcolormesh(X, Y, eta_list[0], ...)`
raises `IndexError` on `eta_list = []` before any directory, frame file
or video container is created (and even past that point,
`video.release()` after the empty loop would hit an unbound local).
This theorem evaluates the embedded pipeline at the failing input:
no events, but an `IndexError` crash instead of a clean return. -/
theorem eta_animation_empty_input_crashes :
    eta_animation (fun _ => []) [] 1 "opencv" 10 = ⟨[], some PyErr.indexError⟩ :=
  rfl

/-- C8: with any writer other than `'opencv'`, each of `eta_animation`,
`velocity_animation` and `eta_animation3D` reaches
`anim.save("{}.mp4".format(filename), ...)` where the name `filename`
is unbound, so a `NameError` is raised and no file event happens (the
hypotheses keep the inputs clear of the earlier `IndexError` and
`ValueError` paths so the `NameError` branch is the one reached). -/
theorem non_opencv_writer_raises_nameError
    (rast1 rast3 : FrameState → Raster) (rast2 : QuivState → Raster)
    (eta_list u_list v_list : List Mat) (shape : ℕ × ℕ) (fi : ℚ) (FPS : ℕ)
    (writer : String) (hw : writer ≠ "opencv")
    (h1 : 1 ≤ eta_list.length) (h2 : 1 ≤ u_list.length)
    (hs : 50 ≤ min shape.1 shape.2) :
    eta_animation rast1 eta_list fi writer FPS = ⟨[], some PyErr.nameError⟩ ∧
    velocity_animation rast2 shape u_list v_list fi writer FPS =
      ⟨[], some PyErr.nameError⟩ ∧
    eta_animation3D rast3 eta_list fi writer FPS = ⟨[], some PyErr.nameError⟩ := by
  have hne : eta_list.length ≠ 0 := by omega
  have hnu : u_list.length ≠ 0 := by omega
  have hq : quiverStride (min shape.1 shape.2) ≠ 0 := by
    rw [Ne, quiverStride_eq_zero_iff]
    omega
  refine ⟨?_, ?_, ?_⟩
  · simp [eta_animation, hne, hw]
  · simp [velocity_animation, hq, hnu, hw]
  · simp [eta_animation3D, hne, hw]

/-- C9: the quiver stride `int(0.02 * min(*X.shape))` is zero exactly
when the smaller grid dimension is below 50, and then the slice
`X[::q_int, ::q_int]` raises `ValueError` (slice step cannot be zero)
before any frame is rendered, whatever the writer: the implicit
precondition of `velocity_animation` is `min(X.shape) ≥ 50`. -/
theorem velocity_animation_small_grid_valueError
    (rasterize : QuivState → Raster) (shape : ℕ × ℕ)
    (u_list v_list : List Mat) (fi : ℚ) (writer : String) (FPS : ℕ)
    (hm : min shape.1 shape.2 < 50) :
    quiverStride (min shape.1 shape.2) = 0 ∧
    velocity_animation rasterize shape u_list v_list fi writer FPS =
      ⟨[], some PyErr.valueError⟩ := by
  have hq : quiverStride (min shape.1 shape.2) = 0 :=
    (quiverStride_eq_zero_iff _).mpr hm
  exact ⟨hq, by simp [velocity_animation, hq]⟩

/-- C5: for a box of positive extents, each per-axis voxel resolution of
`get_mesh` equals `int(res * extent_axis / max(dx, dy, dz))` (the code's
`int(res / rg * extent)` agrees exactly in rational arithmetic), and any
axis whose extent is the largest extent receives resolution `res`. -/
theorem axisResolutions_proportional (b : Bounds) (res : ℕ)
    (hx : 0 < b.xmax - b.xmin) (hy : 0 < b.ymax - b.ymin)
    (hz : 0 < b.zmax - b.zmin) :
    ((axisResolutions b res).1 = ⌊(res : ℚ) * (b.xmax - b.xmin) / rgOf b⌋ ∧
      (axisResolutions b res).2.1 = ⌊(res : ℚ) * (b.ymax - b.ymin) / rgOf b⌋ ∧
      (axisResolutions b res).2.2 = ⌊(res : ℚ) * (b.zmax - b.zmin) / rgOf b⌋) ∧
    ((b.xmax - b.xmin = rgOf b → (axisResolutions b res).1 = (res : ℤ)) ∧
      (b.ymax - b.ymin = rgOf b → (axisResolutions b res).2.1 = (res : ℤ)) ∧
      (b.zmax - b.zmin = rgOf b → (axisResolutions b res).2.2 = (res : ℤ))) := by
  have hrg : 0 < rgOf b := lt_of_lt_of_le hx (le_max_left _ _)
  have key : ∀ d : ℚ, 0 ≤ d →
      pyInt ((res : ℚ) / rgOf b * d) = ⌊(res : ℚ) * d / rgOf b⌋ := by
    intro d hd
    rw [div_mul_eq_mul_div]
    exact pyInt_of_nonneg (div_nonneg (mul_nonneg (Nat.cast_nonneg res) hd) hrg.le)
  have keymax : ∀ d : ℚ, d = rgOf b →
      pyInt ((res : ℚ) / rgOf b * d) = (res : ℤ) := by
    intro d hd
    rw [hd, div_mul_cancel₀ _ hrg.ne']
    exact pyInt_natCast res
  exact ⟨⟨key _ hx.le, key _ hy.le, key _ hz.le⟩,
    fun h => keymax _ h, fun h => keymax _ h, fun h => keymax _ h⟩

/-- C4: `eta_meshes` yields exactly one mesh file per snapshot (N files
for N snapshots when no task fails — the abstract marching-cubes routine
`mc` is total here), named `mesh_{i:08d}.obj` in index order, and the
outcome at index `i` depends on snapshot `i` alone: two snapshot lists
agreeing at index `i` yield the same file there. -/
theorem eta_meshes_count_names_independence {Mesh : Type}
    (mc : Bounds → ℤ × ℤ × ℤ → (ℚ → ℚ → ℚ → ℚ) → ℚ → Mesh)
    (eta_list eta_list₂ : List Mat) (b : Bounds) (res : ℕ) :
    (eta_meshes mc eta_list b res).length = eta_list.length ∧
    (eta_meshes mc eta_list b res).map Prod.fst =
      (List.range eta_list.length).map meshName ∧
    (∀ i, i < eta_list.length → i < eta_list₂.length →
      eta_list.getD i [] = eta_list₂.getD i [] →
      (eta_meshes mc eta_list b res)[i]? = (eta_meshes mc eta_list₂ b res)[i]?) := by
  refine ⟨by simp [eta_meshes], by simp [eta_meshes, get_mesh], ?_⟩
  intro i hi hi₂ hEq
  simp only [eta_meshes, List.getElem?_map, List.getElem?_range hi,
    List.getElem?_range hi₂, Option.map_some']
  rw [hEq]

/-- C3 counterexample: the field of `sdf` does NOT select the nearest
height-field cell.  With the 2×2 height field `[[0,0],[10,10]]` over the
box `[0,1]×[0,1]×[-1,1]` and the sample point `(0.9, 0, 0)`, the scaled
row index is `0.9`: the nearest cell is row 1 (height 10) but `int()`
truncates to row 0 (height 0), so the code's value differs from the
nearest-cell reading of the claim. -/
theorem sdf_not_nearest_cell :
    sdf [[0, 0], [10, 10]] ⟨0, 0, -1, 1, 1, 1⟩ (9 / 10) 0 0 ≠
      nearestCellSdf [[0, 0], [10, 10]] ⟨0, 0, -1, 1, 1, 1⟩ (9 / 10) 0 0 := by
  have e1 : pyInt (scaledIdx ([[0, 0], [10, 10]] : Mat).length 0 1 (9 / 10)) = 0 := by
    norm_num [scaledIdx, pyInt]
  have e2 : round (scaledIdx ([[0, 0], [10, 10]] : Mat).length 0 1 (9 / 10)) = 1 := by
    rw [round_eq]
    norm_num [scaledIdx]
  have e3 : pyInt (scaledIdx (etaCols [[0, 0], [10, 10]]) 0 1 0) = 0 := by
    norm_num [scaledIdx, etaCols, pyInt]
  have e4 : round (scaledIdx (etaCols [[0, 0], [10, 10]]) 0 1 0) = 0 := by
    rw [round_eq]
    norm_num [scaledIdx, etaCols]
  simp only [sdf, nearestCellSdf, e1, e2, e3, e4]
  norm_num [matGetI, pyIdx]

/-- C3 (amended): `sdf` maps `(x, y)` to the height-field cell obtained
by TRUNCATING the proportional index scaling (the floor, for in-box
points), not the nearest cell, and returns `height(cell) - z`; and
evaluated exactly at a height-field sample's `(x, y)` position with `z`
equal to that sample's height value it returns 0. -/
theorem sdf_truncated_cell_and_zero_at_samples (eta : Mat) (b : Bounds)
    (hx : b.xmin < b.xmax) (hy : b.ymin < b.ymax) :
    (∀ x y z : ℚ, b.xmin ≤ x → b.ymin ≤ y →
      sdf eta b x y z =
        matGetI eta ⌊scaledIdx eta.length b.xmin b.xmax x⌋
          ⌊scaledIdx (etaCols eta) b.ymin b.ymax y⌋ - z) ∧
    (∀ i j : ℕ, i < eta.length → j < etaCols eta →
      sdf eta b (samplePos eta.length b.xmin b.xmax i)
        (samplePos (etaCols eta) b.ymin b.ymax j) (matGetI eta i j) = 0) := by
  constructor
  · intro x y z hxx hyy
    have h1 : 0 ≤ scaledIdx eta.length b.xmin b.xmax x := by
      rw [scaledIdx]
      exact div_nonneg (mul_nonneg (Nat.cast_nonneg _) (sub_nonneg.mpr hxx))
        (sub_nonneg.mpr hx.le)
    have h2 : 0 ≤ scaledIdx (etaCols eta) b.ymin b.ymax y := by
      rw [scaledIdx]
      exact div_nonneg (mul_nonneg (Nat.cast_nonneg _) (sub_nonneg.mpr hyy))
        (sub_nonneg.mpr hy.le)
    rw [sdf, pyInt_of_nonneg h1, pyInt_of_nonneg h2]
  · intro i j hi hj
    rw [sdf, scaledIdx_samplePos _ _ _ _ hx hi, scaledIdx_samplePos _ _ _ _ hy hj,
      pyInt_natCast, pyInt_natCast, sub_self]

theorem foldl_min_le_init (l : List ℚ) : ∀ a : ℚ, l.foldl min a ≤ a := by
  induction l with
  | nil => intro a; exact le_refl a
  | cons b t ih => intro a; exact le_trans (ih (min a b)) (min_le_left a b)

theorem foldl_min_le_mem (l : List ℚ) : ∀ a : ℚ, ∀ q ∈ l, l.foldl min a ≤ q := by
  induction l with
  | nil =>
      intro a q hq
      simp at hq
  | cons b t ih =>
      intro a q hq
      rcases List.mem_cons.mp hq with h | h
      · subst h
        exact le_trans (foldl_min_le_init t (min a q)) (min_le_right a q)
      · exact ih (min a b) q h

theorem init_le_foldl_max (l : List ℚ) : ∀ a : ℚ, a ≤ l.foldl max a := by
  induction l with
  | nil => intro a; exact le_refl a
  | cons b t ih => intro a; exact le_trans (le_max_left a b) (ih (max a b))

theorem mem_le_foldl_max (l : List ℚ) : ∀ a : ℚ, ∀ q ∈ l, q ≤ l.foldl max a := by
  induction l with
  | nil =>
      intro a q hq
      simp at hq
  | cons b t ih =>
      intro a q hq
      rcases List.mem_cons.mp hq with h | h
      · subst h
        exact le_trans (le_max_right a q) (init_le_foldl_max t (max a q))
      · exact ih (max a b) q h

theorem listMinD_le_mem (l : List ℚ) : ∀ q ∈ l, listMinD l ≤ q := by
  rcases l with _ | ⟨a, t⟩
  · intro q hq
    simp at hq
  · intro q hq
    rcases List.mem_cons.mp hq with h | h
    · subst h
      exact foldl_min_le_init t q
    · exact foldl_min_le_mem t a q h

theorem mem_le_listMaxD (l : List ℚ) : ∀ q ∈ l, q ≤ listMaxD l := by
  rcases l with _ | ⟨a, t⟩
  · intro q hq
    simp at hq
  · intro q hq
    rcases List.mem_cons.mp hq with h | h
    · subst h
      exact init_le_foldl_max t q
    · exact mem_le_foldl_max t a q h

/-- C1: for a snapshot sequence of length N ≥ 1, the opencv branch of
`eta_animation` returns normally and its trace shows exactly N saved
frame files, indexed `0, …, N-1` in strictly increasing snapshot order
and named `frame_{i:08d}.png`; frame `i` renders snapshot `i` (the
array `eta_list[i][:-1, :-1]` handed to the color mesh) and its title
timestamp, displayed in minutes, equals `i * frame_interval` seconds;
exactly one video container is created and exactly N frames are
appended to it. -/
theorem eta_animation_frame_render_encode (rasterize : FrameState → Raster)
    (eta_list : List Mat) (fi : ℚ) (FPS : ℕ) (hN : 1 ≤ eta_list.length) :
    (eta_animation rasterize eta_list fi "opencv" FPS).error = none ∧
    (pngRecs (eta_animation rasterize eta_list fi "opencv" FPS).events).map
        PngRec.idx = List.range eta_list.length ∧
    ((pngRecs (eta_animation rasterize eta_list fi "opencv" FPS).events).map
        PngRec.idx).Pairwise (· < ·) ∧
    (∀ r ∈ pngRecs (eta_animation rasterize eta_list fi "opencv" FPS).events,
      r.name = frameName r.idx ∧
      r.st.data = trimLast (eta_list.getD r.idx []) ∧
      60 * r.st.titleMinutes = (r.idx : ℚ) * fi ∧
      r.raster = rasterize r.st) ∧
    (openRecs (eta_animation rasterize eta_list fi "opencv" FPS).events).length = 1 ∧
    (writeRecs (eta_animation rasterize eta_list fi "opencv" FPS).events).length =
      eta_list.length := by
  have hne : eta_list.length ≠ 0 := by omega
  have hrun := eta_animation_opencv_run rasterize eta_list fi FPS hne
  set M := matAbsMax (eta_list.getD (eta_list.length / 2) []) with hM
  set mkSt := etaFrameState eta_list fi (-(7 / 10) * M) M with hmkSt
  have hev : (eta_animation rasterize eta_list fi "opencv" FPS).events =
      VizEvent.mkdir "frames"
        :: (renderLoop rasterize mkSt FPS eta_list.length
            ++ [VizEvent.videoRelease]) := by
    rw [hrun]
  have herr : (eta_animation rasterize eta_list fi "opencv" FPS).error = none := by
    rw [hrun]
  have hpng : pngRecs (eta_animation rasterize eta_list fi "opencv" FPS).events =
      (List.range eta_list.length).map
        (fun i => ⟨i, frameName i, mkSt i, rasterize (mkSt i)⟩) := by
    rw [hev, pngRecs_wrap, pngRecs_renderLoop]
  have hidx : (pngRecs (eta_animation rasterize eta_list fi "opencv" FPS).events).map
      PngRec.idx = List.range eta_list.length := by
    rw [hpng, List.map_map]
    exact List.map_id _
  refine ⟨herr, hidx, ?_, ?_, ?_, ?_⟩
  · rw [hidx]
    exact List.pairwise_lt_range eta_list.length
  · intro r hr
    rw [hpng] at hr
    obtain ⟨i, _, rfl⟩ := List.mem_map.mp hr
    refine ⟨rfl, rfl, ?_, rfl⟩
    show (60 : ℚ) * ((i : ℚ) * fi / 60) = (i : ℚ) * fi
    ring
  · rw [hev, openRecs_wrap, openRecs_renderLoop, if_neg hne]
    rfl
  · rw [hev, writeRecs_wrap, writeRecs_renderLoop, List.length_map, List.length_range]

/-- C6: in `eta_animation`, every rendered frame carries the same color
bounds, fixed before the loop from the magnitude of the mid-sequence
snapshot `eta_list[int(len(eta_list)/2)]`:
`vmax = np.abs(mid).max()` and `vmin = -0.7 * vmax`.  The bounds are
fields of the single `pcolormesh` created before the loop, so no frame
recomputes them. -/
theorem eta_animation_mid_snapshot_color_bounds (rasterize : FrameState → Raster)
    (eta_list : List Mat) (fi : ℚ) (FPS : ℕ) (hN : 1 ≤ eta_list.length) :
    ∀ r ∈ pngRecs (eta_animation rasterize eta_list fi "opencv" FPS).events,
      r.st.vmin =
        -(7 / 10) * matAbsMax (eta_list.getD (eta_list.length / 2) []) ∧
      r.st.vmax = matAbsMax (eta_list.getD (eta_list.length / 2) []) := by
  have hne : eta_list.length ≠ 0 := by omega
  rw [eta_animation_opencv_run rasterize eta_list fi FPS hne]
  intro r hr
  rw [pngRecs_wrap, pngRecs_renderLoop] at hr
  obtain ⟨i, _, rfl⟩ := List.mem_map.mp hr
  exact ⟨rfl, rfl⟩

/-- C7: in the opencv branch of `eta_animation`, the video container is
initialized exactly once — event number 2 of the trace, inside loop
iteration 0, right after the first frame is saved — with the raster
dimensions of that first frame; and every raster appended to the
container is the channel-reversed (RGB to BGR) raster of the
corresponding saved frame. -/
theorem eta_animation_video_init_once_bgr (rasterize : FrameState → Raster)
    (eta_list : List Mat) (fi : ℚ) (FPS : ℕ) (hN : 1 ≤ eta_list.length) :
    openRecs (eta_animation rasterize eta_list fi "opencv" FPS).events =
      [("video.mp4", FPS,
        rasterSize (firstPngRaster
          (eta_animation rasterize eta_list fi "opencv" FPS).events))] ∧
    ((eta_animation rasterize eta_list fi "opencv" FPS).events)[2]? =
      some (VizEvent.videoOpen "video.mp4" FPS
        (rasterSize (firstPngRaster
          (eta_animation rasterize eta_list fi "opencv" FPS).events))) ∧
    writeRecs (eta_animation rasterize eta_list fi "opencv" FPS).events =
      (pngRecs (eta_animation rasterize eta_list fi "opencv" FPS).events).map
        (fun r => bgrRaster r.raster) := by
  have hne : eta_list.length ≠ 0 := by omega
  rw [eta_animation_opencv_run rasterize eta_list fi FPS hne]
  obtain ⟨m, hm⟩ : ∃ m, eta_list.length = m + 1 :=
    ⟨eta_list.length - 1, by omega⟩
  have hfirst :
      firstPngRaster
        (VizEvent.mkdir "frames"
          :: (renderLoop rasterize
                (etaFrameState eta_list fi
                  (-(7 / 10) * matAbsMax (eta_list.getD (eta_list.length / 2) []))
                  (matAbsMax (eta_list.getD (eta_list.length / 2) []))) FPS
                eta_list.length
              ++ [VizEvent.videoRelease])) =
        rasterize (etaFrameState eta_list fi
          (-(7 / 10) * matAbsMax (eta_list.getD (eta_list.length / 2) []))
          (matAbsMax (eta_list.getD (eta_list.length / 2) [])) 0) := by
    rw [firstPngRaster, pngRecs_wrap, pngRecs_renderLoop, hm,
      List.range_succ_eq_map]
    simp
  refine ⟨?_, ?_, ?_⟩
  · rw [hfirst, openRecs_wrap, openRecs_renderLoop, if_neg hne]
  · rw [hfirst]
    obtain ⟨rest, hrest⟩ :=
      renderLoop_front rasterize
        (etaFrameState eta_list fi
          (-(7 / 10) * matAbsMax (eta_list.getD (eta_list.length / 2) []))
          (matAbsMax (eta_list.getD (eta_list.length / 2) []))) FPS
        eta_list.length hN
    rw [hrest]
    simp [frameStep]
  · rw [writeRecs_wrap, writeRecs_renderLoop, pngRecs_wrap, pngRecs_renderLoop,
      List.map_map]
    rfl

/-- C10: in `eta_animation3D`, every rendered frame carries the same
color bounds `vmin, vmax = np.array(eta_list).min(), np.array(eta_list).max()`,
computed once before the loop over every entry of every snapshot of the
sequence (every such entry lies between the two bounds), and frame `i`
shows the full snapshot `eta_list[i]` — unlike the 2D pipeline, whose
bounds come from the mid-sequence snapshot's magnitude alone. -/
theorem eta_animation3D_global_color_bounds (rasterize : FrameState → Raster)
    (eta_list : List Mat) (fi : ℚ) (FPS : ℕ) (hN : 1 ≤ eta_list.length) :
    (∀ r ∈ pngRecs (eta_animation3D rasterize eta_list fi "opencv" FPS).events,
      r.st.vmin = listMinD eta_list.flatten.flatten ∧
      r.st.vmax = listMaxD eta_list.flatten.flatten ∧
      r.st.data = eta_list.getD r.idx []) ∧
    (∀ q ∈ eta_list.flatten.flatten,
      listMinD eta_list.flatten.flatten ≤ q ∧
      q ≤ listMaxD eta_list.flatten.flatten) := by
  have hne : eta_list.length ≠ 0 := by omega
  constructor
  · rw [eta_animation3D_opencv_run rasterize eta_list fi FPS hne]
    intro r hr
    rw [pngRecs_wrap, pngRecs_renderLoop] at hr
    obtain ⟨i, _, rfl⟩ := List.mem_map.mp hr
    exact ⟨rfl, rfl, rfl⟩
  · intro q hq
    exact ⟨listMinD_le_mem _ q hq, mem_le_listMaxD _ q hq⟩

/-- Concrete run of the C8 theorem: writer `"ffmpeg"`, one 1×1 snapshot,
a 60×60 grid. -/
theorem non_opencv_writer_raises_nameError_witness :
    ("ffmpeg" : String) ≠ "opencv" ∧
    1 ≤ ([[[(1 : ℚ)]]] : List Mat).length ∧
    50 ≤ min (60 : ℕ) 60 ∧
    (eta_animation (fun _ => []) [[[(1 : ℚ)]]] 1 "ffmpeg" 10 =
        ⟨[], some PyErr.nameError⟩ ∧
      velocity_animation (fun _ => []) (60, 60) [[[(1 : ℚ)]]] [[[(1 : ℚ)]]] 1
          "ffmpeg" 10 = ⟨[], some PyErr.nameError⟩ ∧
      eta_animation3D (fun _ => []) [[[(1 : ℚ)]]] 1 "ffmpeg" 10 =
        ⟨[], some PyErr.nameError⟩) :=
  ⟨by decide, by decide, by decide,
    non_opencv_writer_raises_nameError (fun _ => []) (fun _ => []) (fun _ => [])
      [[[(1 : ℚ)]]] [[[(1 : ℚ)]]] [[[(1 : ℚ)]]] (60, 60) 1 10 "ffmpeg"
      (by decide) (by decide) (by decide) (by decide)⟩

/-- Concrete run of the C9 theorem: a 49×100 grid, whose smaller
dimension is below 50. -/
theorem velocity_animation_small_grid_valueError_witness :
    min (49 : ℕ) 100 < 50 ∧
    (quiverStride (min (49 : ℕ) 100) = 0 ∧
      velocity_animation (fun _ => []) (49, 100) [] [] 0 "opencv" 10 =
        ⟨[], some PyErr.valueError⟩) :=
  ⟨by decide,
    velocity_animation_small_grid_valueError (fun _ => []) (49, 100) [] [] 0
      "opencv" 10 (by decide)⟩

/-- Concrete run of the C5 theorem: box extents (2, 1, 1), resolution 8. -/
theorem axisResolutions_proportional_witness :
    (0 : ℚ) < 2 - 0 ∧ (0 : ℚ) < 1 - 0 ∧ (0 : ℚ) < 1 - 0 ∧
    (((axisResolutions ⟨0, 0, 0, 2, 1, 1⟩ 8).1 =
        ⌊((8 : ℕ) : ℚ) * ((2 : ℚ) - 0) / rgOf ⟨0, 0, 0, 2, 1, 1⟩⌋ ∧
      (axisResolutions ⟨0, 0, 0, 2, 1, 1⟩ 8).2.1 =
        ⌊((8 : ℕ) : ℚ) * ((1 : ℚ) - 0) / rgOf ⟨0, 0, 0, 2, 1, 1⟩⌋ ∧
      (axisResolutions ⟨0, 0, 0, 2, 1, 1⟩ 8).2.2 =
        ⌊((8 : ℕ) : ℚ) * ((1 : ℚ) - 0) / rgOf ⟨0, 0, 0, 2, 1, 1⟩⌋) ∧
    (((2 : ℚ) - 0 = rgOf ⟨0, 0, 0, 2, 1, 1⟩ →
        (axisResolutions ⟨0, 0, 0, 2, 1, 1⟩ 8).1 = ((8 : ℕ) : ℤ)) ∧
      ((1 : ℚ) - 0 = rgOf ⟨0, 0, 0, 2, 1, 1⟩ →
        (axisResolutions ⟨0, 0, 0, 2, 1, 1⟩ 8).2.1 = ((8 : ℕ) : ℤ)) ∧
      ((1 : ℚ) - 0 = rgOf ⟨0, 0, 0, 2, 1, 1⟩ →
        (axisResolutions ⟨0, 0, 0, 2, 1, 1⟩ 8).2.2 = ((8 : ℕ) : ℤ)))) :=
  ⟨by norm_num, by norm_num, by norm_num,
    axisResolutions_proportional ⟨0, 0, 0, 2, 1, 1⟩ 8 (by norm_num) (by norm_num)
      (by norm_num)⟩

/-- Concrete run of the C4 theorem: a constant mesh routine, a
one-snapshot list and a two-snapshot list agreeing at index 0. -/
theorem eta_meshes_count_names_independence_witness :
    (eta_meshes (fun _ _ _ _ => (0 : ℕ)) [[[(5 : ℚ)]]] ⟨0, 0, 0, 1, 1, 1⟩ 8).length =
      ([[[(5 : ℚ)]]] : List Mat).length ∧
    (eta_meshes (fun _ _ _ _ => (0 : ℕ)) [[[(5 : ℚ)]]] ⟨0, 0, 0, 1, 1, 1⟩ 8).map
        Prod.fst = (List.range ([[[(5 : ℚ)]]] : List Mat).length).map meshName ∧
    (∀ i, i < ([[[(5 : ℚ)]]] : List Mat).length →
      i < ([[[(5 : ℚ)]], [[(6 : ℚ)]]] : List Mat).length →
      ([[[(5 : ℚ)]]] : List Mat).getD i [] =
        ([[[(5 : ℚ)]], [[(6 : ℚ)]]] : List Mat).getD i [] →
      (eta_meshes (fun _ _ _ _ => (0 : ℕ)) [[[(5 : ℚ)]]] ⟨0, 0, 0, 1, 1, 1⟩ 8)[i]? =
        (eta_meshes (fun _ _ _ _ => (0 : ℕ)) [[[(5 : ℚ)]], [[(6 : ℚ)]]]
          ⟨0, 0, 0, 1, 1, 1⟩ 8)[i]?) :=
  eta_meshes_count_names_independence (fun _ _ _ _ => (0 : ℕ)) [[[(5 : ℚ)]]]
    [[[(5 : ℚ)]], [[(6 : ℚ)]]] ⟨0, 0, 0, 1, 1, 1⟩ 8

/-- Concrete run of the C3 amended theorem on the 2×2 height field
`[[1,2],[3,4]]` over the box `[0,1]×[0,1]×[-1,1]`. -/
theorem sdf_truncated_cell_and_zero_at_samples_witness :
    (0 : ℚ) < 1 ∧ (0 : ℚ) < 1 ∧
    ((∀ x y z : ℚ, (0 : ℚ) ≤ x → (0 : ℚ) ≤ y →
      sdf [[1, 2], [3, 4]] ⟨0, 0, -1, 1, 1, 1⟩ x y z =
        matGetI [[1, 2], [3, 4]] ⌊scaledIdx ([[1, 2], [3, 4]] : Mat).length 0 1 x⌋
          ⌊scaledIdx (etaCols [[1, 2], [3, 4]]) 0 1 y⌋ - z) ∧
    (∀ i j : ℕ, i < ([[1, 2], [3, 4]] : Mat).length → j < etaCols [[1, 2], [3, 4]] →
      sdf [[1, 2], [3, 4]] ⟨0, 0, -1, 1, 1, 1⟩
        (samplePos ([[1, 2], [3, 4]] : Mat).length 0 1 i)
        (samplePos (etaCols [[1, 2], [3, 4]]) 0 1 j)
        (matGetI [[1, 2], [3, 4]] i j) = 0)) :=
  ⟨by norm_num, by norm_num,
    sdf_truncated_cell_and_zero_at_samples [[1, 2], [3, 4]] ⟨0, 0, -1, 1, 1, 1⟩
      (by norm_num) (by norm_num)⟩

/-- Concrete run of the C1 theorem: one 2×2 snapshot, interval 120 s,
10 fps, a constant one-pixel rasterizer. -/
theorem eta_animation_frame_render_encode_witness :
    1 ≤ ([[[(1 : ℚ), 2], [3, 4]]] : List Mat).length ∧
    ((eta_animation (fun _ => [[((1 : ℚ), 2, 3)]]) [[[(1 : ℚ), 2], [3, 4]]] 120
        "opencv" 10).error = none ∧
    (pngRecs (eta_animation (fun _ => [[((1 : ℚ), 2, 3)]]) [[[(1 : ℚ), 2], [3, 4]]]
        120 "opencv" 10).events).map PngRec.idx =
      List.range ([[[(1 : ℚ), 2], [3, 4]]] : List Mat).length ∧
    ((pngRecs (eta_animation (fun _ => [[((1 : ℚ), 2, 3)]]) [[[(1 : ℚ), 2], [3, 4]]]
        120 "opencv" 10).events).map PngRec.idx).Pairwise (· < ·) ∧
    (∀ r ∈ pngRecs (eta_animation (fun _ => [[((1 : ℚ), 2, 3)]])
        [[[(1 : ℚ), 2], [3, 4]]] 120 "opencv" 10).events,
      r.name = frameName r.idx ∧
      r.st.data = trimLast (([[[(1 : ℚ), 2], [3, 4]]] : List Mat).getD r.idx []) ∧
      60 * r.st.titleMinutes = (r.idx : ℚ) * 120 ∧
      r.raster = [[((1 : ℚ), 2, 3)]]) ∧
    (openRecs (eta_animation (fun _ => [[((1 : ℚ), 2, 3)]]) [[[(1 : ℚ), 2], [3, 4]]]
        120 "opencv" 10).events).length = 1 ∧
    (writeRecs (eta_animation (fun _ => [[((1 : ℚ), 2, 3)]]) [[[(1 : ℚ), 2], [3, 4]]]
        120 "opencv" 10).events).length =
      ([[[(1 : ℚ), 2], [3, 4]]] : List Mat).length) :=
  ⟨by decide,
    eta_animation_frame_render_encode (fun _ => [[((1 : ℚ), 2, 3)]])
      [[[(1 : ℚ), 2], [3, 4]]] 120 10 (by decide)⟩

/-- Concrete run of the C6 theorem at the same input. -/
theorem eta_animation_mid_snapshot_color_bounds_witness :
    1 ≤ ([[[(1 : ℚ), 2], [3, 4]]] : List Mat).length ∧
    (∀ r ∈ pngRecs (eta_animation (fun _ => [[((1 : ℚ), 2, 3)]])
        [[[(1 : ℚ), 2], [3, 4]]] 120 "opencv" 10).events,
      r.st.vmin = -(7 / 10) * matAbsMax (([[[(1 : ℚ), 2], [3, 4]]] : List Mat).getD
        (([[[(1 : ℚ), 2], [3, 4]]] : List Mat).length / 2) []) ∧
      r.st.vmax = matAbsMax (([[[(1 : ℚ), 2], [3, 4]]] : List Mat).getD
        (([[[(1 : ℚ), 2], [3, 4]]] : List Mat).length / 2) [])) :=
  ⟨by decide,
    eta_animation_mid_snapshot_color_bounds (fun _ => [[((1 : ℚ), 2, 3)]])
      [[[(1 : ℚ), 2], [3, 4]]] 120 10 (by decide)⟩

/-- Concrete run of the C7 theorem at the same input. -/
theorem eta_animation_video_init_once_bgr_witness :
    1 ≤ ([[[(1 : ℚ), 2], [3, 4]]] : List Mat).length ∧
    (openRecs (eta_animation (fun _ => [[((1 : ℚ), 2, 3)]]) [[[(1 : ℚ), 2], [3, 4]]]
        120 "opencv" 10).events =
      [("video.mp4", 10,
        rasterSize (firstPngRaster (eta_animation (fun _ => [[((1 : ℚ), 2, 3)]])
          [[[(1 : ℚ), 2], [3, 4]]] 120 "opencv" 10).events))] ∧
    ((eta_animation (fun _ => [[((1 : ℚ), 2, 3)]]) [[[(1 : ℚ), 2], [3, 4]]] 120
        "opencv" 10).events)[2]? =
      some (VizEvent.videoOpen "video.mp4" 10
        (rasterSize (firstPngRaster (eta_animation (fun _ => [[((1 : ℚ), 2, 3)]])
          [[[(1 : ℚ), 2], [3, 4]]] 120 "opencv" 10).events))) ∧
    writeRecs (eta_animation (fun _ => [[((1 : ℚ), 2, 3)]]) [[[(1 : ℚ), 2], [3, 4]]]
        120 "opencv" 10).events =
      (pngRecs (eta_animation (fun _ => [[((1 : ℚ), 2, 3)]]) [[[(1 : ℚ), 2], [3, 4]]]
        120 "opencv" 10).events).map (fun r => bgrRaster r.raster)) :=
  ⟨by decide,
    eta_animation_video_init_once_bgr (fun _ => [[((1 : ℚ), 2, 3)]])
      [[[(1 : ℚ), 2], [3, 4]]] 120 10 (by decide)⟩

/-- Concrete run of the C10 theorem at the same input (3D pipeline). -/
theorem eta_animation3D_global_color_bounds_witness :
    1 ≤ ([[[(1 : ℚ), 2], [3, 4]]] : List Mat).length ∧
    ((∀ r ∈ pngRecs (eta_animation3D (fun _ => [[((1 : ℚ), 2, 3)]])
        [[[(1 : ℚ), 2], [3, 4]]] 120 "opencv" 10).events,
      r.st.vmin = listMinD ([[[(1 : ℚ), 2], [3, 4]]] : List Mat).flatten.flatten ∧
      r.st.vmax = listMaxD ([[[(1 : ℚ), 2], [3, 4]]] : List Mat).flatten.flatten ∧
      r.st.data = ([[[(1 : ℚ), 2], [3, 4]]] : List Mat).getD r.idx []) ∧
    (∀ q ∈ ([[[(1 : ℚ), 2], [3, 4]]] : List Mat).flatten.flatten,
      listMinD ([[[(1 : ℚ), 2], [3, 4]]] : List Mat).flatten.flatten ≤ q ∧
      q ≤ listMaxD ([[[(1 : ℚ), 2], [3, 4]]] : List Mat).flatten.flatten)) :=
  ⟨by decide,
    eta_animation3D_global_color_bounds (fun _ => [[((1 : ℚ), 2, 3)]])
      [[[(1 : ℚ), 2], [3, 4]]] 120 10 (by decide)⟩
